import Mathlib

/-!
Shallow embedding of the slippy subsurface-stress sub-model
(`slippy/contact/sub_models/sub_surface_stress.py`) and of the rolling-surface
shift sub-model (`slippy/contact/sub_models/shift_surface.py`), together with
theorems settling the specification claims about them.

Python dictionaries are modelled as insertion-ordered association lists,
Python exceptions as an error value threaded with the partially mutated state,
and numpy arrays as shape-carrying value functions over an abstract scalar
type `R`.  The numeric backend (`numpy` vs `cupy`, selected through `xp` in
the source) is modelled as a record of scalar operations `NumLib R`; the
real-number instance `realLib` is used for the claims about the closed-form
eigen-solver, and a rational instance `ratLib` for the control-flow claims.
-/

namespace Slippy

/-- Python exceptions raised by the embedded code.  A `KeyError` on the state
dictionary (a required key absent from the state) is the realisation of the
spec's `MissingDependency`; a `KeyError` on an internal dictionary such as the
kernel cache is kept separate as `keyError`. -/
inductive Err where
  | missingDependency (key : String)
  | keyError (key : String)
  | typeError (msg : String)
  | runtimeError (msg : String)
  | assertionError (msg : String)
  | valueError (msg : String)
  | attributeError (msg : String)
  | indexError (msg : String)
deriving DecidableEq

/-- Insertion-ordered association list, the model of a Python `dict`. -/
abbrev Dict (α β : Type) : Type := List (α × β)

/-- `d[k]` as an optional read (Python raises `KeyError` on `none`). -/
def dget? [DecidableEq α] (k : α) : Dict α β → Option β
  | [] => none
  | (k0, v) :: d => if k0 = k then some v else dget? k d

/-- `d[k] = v`: replace in place if the key exists, else append (Python dicts
keep insertion order). -/
def dinsert [DecidableEq α] (k : α) (v : β) : Dict α β → Dict α β
  | [] => [(k, v)]
  | (k0, v0) :: d => if k0 = k then (k0, v) :: d else (k0, v0) :: dinsert k v d

/-- Iteration order of a Python dict: its keys in insertion order. -/
def dkeys (d : Dict α β) : List α := d.map Prod.fst

/-- Unwrap an `Except` with a fallback (used only to name concrete values). -/
def exOk (e : Except Err α) (d : α) : α :=
  match e with
  | .ok a => a
  | .error _ => d

/-- `true` exactly when no exception was raised. -/
def exIsOk : Except Err α → Bool
  | .ok _ => true
  | .error _ => false

/-- The scalar operations the engine uses from its numeric backend, the
embedding of the `xp` module dispatch (`numpy` / `cupy`). -/
structure NumLib (R : Type) where
  add : R → R → R
  sub : R → R → R
  mul : R → R → R
  div : R → R → R
  neg : R → R
  sqrt : R → R
  cos : R → R
  arccos : R → R
  pi : R
  natCast : ℕ → R
  max2 : R → R → R
  min2 : R → R → R

/-- The real-number backend: exact real arithmetic idealising `numpy` floats. -/
noncomputable def realLib : NumLib ℝ where
  add := fun a b => a + b
  sub := fun a b => a - b
  mul := fun a b => a * b
  div := fun a b => a / b
  neg := fun a => -a
  sqrt := Real.sqrt
  cos := Real.cos
  arccos := Real.arccos
  pi := Real.pi
  natCast := fun n => (n : ℝ)
  max2 := max
  min2 := min

/-- A rational backend used for the control-flow claims, where the
transcendental operations are never relevant. -/
def ratLib : NumLib ℚ where
  add := fun a b => a + b
  sub := fun a b => a - b
  mul := fun a b => a * b
  div := fun a b => a / b
  neg := fun a => -a
  sqrt := fun a => a
  cos := fun a => a
  arccos := fun a => a
  pi := 0
  natCast := fun n => (n : ℚ)
  max2 := max
  min2 := min

/-- A 2-d load array: a shape (the domain span) and a value function. -/
structure Arr2 (R : Type) where
  shape : ℕ × ℕ
  val : ℕ → ℕ → R

/-- A 3-d result array of shape `(len(z),) + span`. -/
structure Arr3 (R : Type) where
  shape : ℕ × ℕ × ℕ
  val : ℕ → ℕ → ℕ → R

/-- `xp.zeros(out_put_shape)`. -/
def zerosA (nl : NumLib R) (sh : ℕ × ℕ × ℕ) : Arr3 R :=
  ⟨sh, fun _ _ _ => nl.natCast 0⟩

/-- Elementwise `+` on result arrays. -/
def addA (nl : NumLib R) (a b : Arr3 R) : Arr3 R :=
  ⟨a.shape, fun i j k => nl.add (a.val i j k) (b.val i j k)⟩

/-- A value stored in the state dict: a 2-d load field or a 3-d result. -/
inductive Val (R : Type) where
  | a2 (a : Arr2 R)
  | a3 (a : Arr3 R)

/-- The mutable state mapping (the "State Context" of the spec). -/
abbrev State (R : Type) : Type := Dict String (Val R)

/-- A convolution function as returned by `plan_multi_convolve`: bound to one
kernel, it maps a load field to the stacked subsurface response. -/
abbrev ConvF (R : Type) : Type := Arr2 R → Arr3 R

/-- `self._kernel_cache`: surface number -> dict -> dict of convolution
functions.  At construction the middle level is keyed by *stress component*
names, while `solve` reads and writes it keyed by *load component* letters;
both are strings, exactly as in the source. -/
abbrev Cache (R : Type) : Type := Dict ℕ (Dict String (Dict String (ConvF R)))

/-- Modelled from the spec: influence-matrix materials
(`_IMMaterial`, from `slippy.core`, not part of the sources) expose the
per-component subsurface-stress influence matrices as an opaque function of
(span, grid spacing, requested components, depths, device flag); `is_im`
records whether the material is influence-matrix based (the `isinstance`
check asserted by `solve`). -/
structure Material (R K : Type) where
  is_im : Bool
  sss_influence_matrices_normal : (ℕ × ℕ) → List R → List String → List R → Bool → Dict String K
  sss_influence_matrices_tangential_x : (ℕ × ℕ) → List R → List String → List R → Bool → Dict String K
  sss_influence_matrices_tangential_y : (ℕ × ℕ) → List R → List String → List R → Bool → Dict String K

/-- A surface object as read from the contact model (`self.model.surface_n`). -/
structure SurfaceObj (R K : Type) where
  material : Material R K
  grid_spacing : R

/-- Modelled from the spec: the contact model the sub-model is registered
with; `surface n` is `getattr(self.model, 'surface_' + str(n))`, `none`
meaning the attribute is absent. -/
structure ModelEnv (R K : Type) where
  surface : ℕ → Option (SurfaceObj R K)

/-- Modelled from the spec: `plan_multi_convolve` (from `slippy.core`, not
part of the sources) is an opaque factory taking a template load field, a
kernel and the periodic-axes flags and returning a convolution function. -/
structure Ext (R K : Type) where
  plan_multi_convolve : Arr2 R → K → (Bool × Bool) → ConvF R

/-- The tuple `valid_stresses` of `SubsurfaceStress.__init__`. -/
def valid_stresses : List String :=
  ["xx", "yy", "zz", "xy", "yz", "xz", "1", "2", "3", "vm"]

/-- The six Cauchy tensor components, in the order used by `__init__`. -/
def six_components : List String := ["xx", "yy", "zz", "xy", "yz", "xz"]

/-- The `SubsurfaceStress` sub-model instance after `__init__`, including its
mutable kernel cache and last-seen span. -/
structure SubsurfaceStress (R : Type) where
  name : String
  requires : Finset String
  provides : Finset String
  surfaces : List ℕ
  load_components : List Char
  stress_components : List String
  keep_kernels : Bool
  cuda_convolutions : Bool
  kernel_cache : Cache R
  cache_span : ℕ × ℕ
  z : Option (List R)
  comps_to_find : List String
  periodic_axes : Bool × Bool

/-- `{s: {a: dict() for a in stress_components} for s in surface}`: the
initial kernel cache, whose middle level is keyed by stress components. -/
def initCache (R : Type) (surfaces : List ℕ) (stress_components : List String) : Cache R :=
  surfaces.foldl
    (fun d s =>
      dinsert s
        (stress_components.foldl
          (fun d2 a => dinsert a ([] : Dict String (ConvF R)) d2) []) d) []

/-- `itertools.product(surface, stress_components)` mapped to provided keys. -/
def providesList (surfaces : List ℕ) (stress_components : List String) : List String :=
  surfaces.foldl
    (fun acc s =>
      acc ++ stress_components.map (fun sc => "surface_" ++ toString s ++ "_" ++ sc)) []

/-- `SubsurfaceStress.__init__`.  Validation is eager: the first unrecognised
load direction, then the first unrecognised stress component, raises
`ValueError`.  `z` is stored unchanged (line `self.z = z`). -/
def SubsurfaceStress.init (R : Type) (z : Option (List R)) (surface : List ℕ)
    (name : String) (periodic_axes : Bool × Bool) (load_components : List Char)
    (stress_components : List String) (keep_kernels : Bool)
    (cuda_convolutions : Bool) : Except Err (SubsurfaceStress R) :=
  match load_components.find? (fun c => !(c == 'x' || c == 'z')) with
  | some c => .error (.valueError ("Unrecognised load direction: " ++ "".push c))
  | none =>
    match stress_components.find? (fun sc => !(valid_stresses.contains sc)) with
    | some sc => .error (.valueError ("Unrecognised stress component: " ++ sc))
    | none =>
      let calc_all := ["1", "2", "3", "vm"].any (fun s => stress_components.contains s)
      .ok
        { name := name
          requires := (load_components.map (fun c => "loads_".push c)).toFinset
          provides := (providesList surface stress_components).toFinset
          surfaces := surface
          load_components := load_components
          stress_components := stress_components
          keep_kernels := keep_kernels
          cuda_convolutions := cuda_convolutions
          kernel_cache := initCache R surface stress_components
          cache_span := (0, 0)
          z := z
          comps_to_find := if calc_all then six_components else stress_components
          periodic_axes := periodic_axes }

/-! ## The closed-form eigen-solver, pointwise

`numpy` elementwise expressions are modelled pointwise over the scalar
backend; each definition transcribes the corresponding expression of
`SubsurfaceStress.solve` (lines 133-168). -/

/-- `b = xx + yy + zz` (line 141). -/
def codeB (nl : NumLib R) (xx yy zz : R) : R := nl.add (nl.add xx yy) zz

/-- `c = xx*yy + yy*zz + xx*zz - xy**2 - xz**2 - yz**2` (lines 142-146). -/
def codeC (nl : NumLib R) (xx yy zz xy xz yz : R) : R :=
  nl.sub (nl.sub (nl.sub (nl.add (nl.add (nl.mul xx yy) (nl.mul yy zz)) (nl.mul xx zz))
    (nl.mul xy xy)) (nl.mul xz xz)) (nl.mul yz yz)

/-- `d = xx*yy*zz + 2*xy*xz*yz - xx*yz**2 - yy*xz**2 - zz*xy**2`
(lines 147-151). -/
def codeD (nl : NumLib R) (xx yy zz xy xz yz : R) : R :=
  nl.sub (nl.sub (nl.sub (nl.add (nl.mul (nl.mul xx yy) zz)
    (nl.mul (nl.mul (nl.mul (nl.natCast 2) xy) xz) yz))
    (nl.mul xx (nl.mul yz yz))) (nl.mul yy (nl.mul xz xz))) (nl.mul zz (nl.mul xy xy))

/-- `p = c - (b ** 2) / 3` (line 153). -/
def codeP (nl : NumLib R) (b c : R) : R :=
  nl.sub c (nl.div (nl.mul b b) (nl.natCast 3))

/-- `q = (2 / 27) * b ** 3 - (1 / 3) * b * c + d` (line 154). -/
def codeQ (nl : NumLib R) (b c d : R) : R :=
  nl.add (nl.sub (nl.mul (nl.div (nl.natCast 2) (nl.natCast 27)) (nl.mul (nl.mul b b) b))
    (nl.mul (nl.mul (nl.div (nl.natCast 1) (nl.natCast 3)) b) c)) d

/-- `principals[i] = 2*sqrt((-1/3)*p)*cos(1/3*arccos(3*q/(2*p)*sqrt(-3/p))
- 2*pi*i/3) - b/3` (lines 162-163). -/
def codeRoot (nl : NumLib R) (b p q : R) (i : ℕ) : R :=
  nl.sub
    (nl.mul
      (nl.mul (nl.natCast 2) (nl.sqrt (nl.mul (nl.div (nl.neg (nl.natCast 1)) (nl.natCast 3)) p)))
      (nl.cos
        (nl.sub
          (nl.mul (nl.div (nl.natCast 1) (nl.natCast 3))
            (nl.arccos
              (nl.mul (nl.div (nl.mul (nl.natCast 3) q) (nl.mul (nl.natCast 2) p))
                (nl.sqrt (nl.div (nl.neg (nl.natCast 3)) p)))))
          (nl.div (nl.mul (nl.mul (nl.natCast 2) nl.pi) (nl.natCast i)) (nl.natCast 3)))))
    (nl.div b (nl.natCast 3))

/-- `intermediate_results['1'] = xp.max(principals, 0)` (line 166), pointwise:
the largest of the three computed roots. -/
def codeS1sc (nl : NumLib R) (xx yy zz xy xz yz : R) : R :=
  nl.max2
    (nl.max2
      (codeRoot nl (codeB nl xx yy zz)
        (codeP nl (codeB nl xx yy zz) (codeC nl xx yy zz xy xz yz))
        (codeQ nl (codeB nl xx yy zz) (codeC nl xx yy zz xy xz yz) (codeD nl xx yy zz xy xz yz)) 0)
      (codeRoot nl (codeB nl xx yy zz)
        (codeP nl (codeB nl xx yy zz) (codeC nl xx yy zz xy xz yz))
        (codeQ nl (codeB nl xx yy zz) (codeC nl xx yy zz xy xz yz) (codeD nl xx yy zz xy xz yz)) 1))
    (codeRoot nl (codeB nl xx yy zz)
      (codeP nl (codeB nl xx yy zz) (codeC nl xx yy zz xy xz yz))
      (codeQ nl (codeB nl xx yy zz) (codeC nl xx yy zz xy xz yz) (codeD nl xx yy zz xy xz yz)) 2)

/-- `intermediate_results['3'] = xp.min(principals, 0)` (line 167). -/
def codeS3sc (nl : NumLib R) (xx yy zz xy xz yz : R) : R :=
  nl.min2
    (nl.min2
      (codeRoot nl (codeB nl xx yy zz)
        (codeP nl (codeB nl xx yy zz) (codeC nl xx yy zz xy xz yz))
        (codeQ nl (codeB nl xx yy zz) (codeC nl xx yy zz xy xz yz) (codeD nl xx yy zz xy xz yz)) 0)
      (codeRoot nl (codeB nl xx yy zz)
        (codeP nl (codeB nl xx yy zz) (codeC nl xx yy zz xy xz yz))
        (codeQ nl (codeB nl xx yy zz) (codeC nl xx yy zz xy xz yz) (codeD nl xx yy zz xy xz yz)) 1))
    (codeRoot nl (codeB nl xx yy zz)
      (codeP nl (codeB nl xx yy zz) (codeC nl xx yy zz xy xz yz))
      (codeQ nl (codeB nl xx yy zz) (codeC nl xx yy zz xy xz yz) (codeD nl xx yy zz xy xz yz)) 2)

/-- `intermediate_results['2'] = b - intermediate_results['1'] -
intermediate_results['3']` (line 168). -/
def codeS2sc (nl : NumLib R) (xx yy zz xy xz yz : R) : R :=
  nl.sub (nl.sub (codeB nl xx yy zz) (codeS1sc nl xx yy zz xy xz yz))
    (codeS3sc nl xx yy zz xy xz yz)

/-- `vm = sqrt(((xx-yy)**2 + (yy-zz)**2 + (zz-xx)**2 + 6*(xy**2 + yz**2 +
xz**2)) / 2)` (lines 134-139). -/
def codeVm (nl : NumLib R) (xx yy zz xy yz xz : R) : R :=
  nl.sqrt
    (nl.div
      (nl.add
        (nl.add (nl.add (nl.mul (nl.sub xx yy) (nl.sub xx yy))
          (nl.mul (nl.sub yy zz) (nl.sub yy zz))) (nl.mul (nl.sub zz xx) (nl.sub zz xx)))
        (nl.mul (nl.natCast 6)
          (nl.add (nl.add (nl.mul xy xy) (nl.mul yz yz)) (nl.mul xz xz))))
      (nl.natCast 2))

/-! ## The solve method -/

/-- A `defaultdict` read `intermediate_results[key]`: the stored array, or a
fresh zero array of the output shape. -/
def irget (nl : NumLib R) (zsh : ℕ × ℕ × ℕ) (k : String) (ir : Dict String (Arr3 R)) : Arr3 R :=
  (dget? k ir).getD (zerosA nl zsh)

/-- The entry-creating side effect of a `defaultdict` read: a missing key is
appended with a zero array. -/
def touch (nl : NumLib R) (zsh : ℕ × ℕ × ℕ) (k : String) (ir : Dict String (Arr3 R)) :
    Dict String (Arr3 R) :=
  match dget? k ir with
  | some _ => ir
  | none => ir ++ [(k, zerosA nl zsh)]

/-- Reads of several `defaultdict` keys in evaluation order. -/
def touchAll (nl : NumLib R) (zsh : ℕ × ℕ × ℕ) (ks : List String)
    (ir : Dict String (Arr3 R)) : Dict String (Arr3 R) :=
  ks.foldl (fun d k => touch nl zsh k d) ir

/-- Lines 114-124: dispatch on the load component to the material's
influence-matrix function and plan one convolution function per returned
stress component. -/
def buildConv (ext : Ext R K) (mat : Material R K) (m : SubsurfaceStress R)
    (span : ℕ × ℕ) (gs : List R) (zs : List R) (exL : Arr2 R) (l : Char) :
    Except Err (List (String × ConvF R)) :=
  if l = 'z' then
    .ok ((mat.sss_influence_matrices_normal span gs m.comps_to_find zs m.cuda_convolutions).map
      (fun kv => (kv.1, ext.plan_multi_convolve exL kv.2 m.periodic_axes)))
  else if l = 'x' then
    .ok ((mat.sss_influence_matrices_tangential_x span gs m.comps_to_find zs m.cuda_convolutions).map
      (fun kv => (kv.1, ext.plan_multi_convolve exL kv.2 m.periodic_axes)))
  else if l = 'y' then
    .ok ((mat.sss_influence_matrices_tangential_y span gs m.comps_to_find zs m.cuda_convolutions).map
      (fun kv => (kv.1, ext.plan_multi_convolve exL kv.2 m.periodic_axes)))
  else .error (.valueError ("Unrecognised load component requested: " ++ "".push l))

/-- Lines 111-127: fetch the cached convolution functions when
`keep_kernels and span == self._cache_span`, else rebuild them and, when
keeping kernels, record `self._cache_span = span` and store them under
`self._kernel_cache[surface_num][l_comp]`. -/
def convStep (ext : Ext R K) (mat : Material R K) (m : SubsurfaceStress R)
    (span : ℕ × ℕ) (gs : List R) (zs : List R) (exL : Arr2 R) (n : ℕ) (l : Char)
    (cache : Cache R) (cspan : ℕ × ℕ) :
    Except Err (List (String × ConvF R)) × Cache R × (ℕ × ℕ) :=
  if m.keep_kernels = true ∧ span = cspan then
    match dget? n cache with
    | none => (.error (.keyError (toString n)), cache, cspan)
    | some inner =>
      match dget? ("".push l) inner with
      | none => (.error (.keyError ("".push l)), cache, cspan)
      | some cfs => (.ok cfs, cache, cspan)
  else
    match buildConv ext mat m span gs zs exL l with
    | .error e => (.error e, cache, cspan)
    | .ok cfs =>
      if m.keep_kernels then
        match dget? n cache with
        | none => (.error (.keyError (toString n)), cache, span)
        | some inner => (.ok cfs, dinsert n (dinsert ("".push l) cfs inner) cache, span)
      else (.ok cfs, cache, cspan)

/-- Lines 129-131: for each planned convolution function, read the load field
from the state (raising on a missing `loads_*` key) and accumulate into the
`defaultdict` of intermediate results. -/
def accumLoop (nl : NumLib R) (zsh : ℕ × ℕ × ℕ) (st : State R) (lkey : String) :
    List (String × ConvF R) → Dict String (Arr3 R) → Except Err (Dict String (Arr3 R))
  | [], ir => .ok ir
  | (key, cf) :: rest, ir =>
    match dget? lkey st with
    | none => .error (.missingDependency lkey)
    | some (.a3 _) => .error (.typeError lkey)
    | some (.a2 loads) =>
      accumLoop nl zsh st lkey rest (dinsert key (addA nl (irget nl zsh key ir) (cf loads)) ir)

/-- Lines 110-131: the loop over the requested load components. -/
def lcompLoop (nl : NumLib R) (ext : Ext R K) (mat : Material R K)
    (m : SubsurfaceStress R) (span : ℕ × ℕ) (gs : List R) (zs : List R)
    (zsh : ℕ × ℕ × ℕ) (exL : Arr2 R) (st : State R) (n : ℕ) :
    List Char → Dict String (Arr3 R) → Cache R → (ℕ × ℕ) →
      Except Err (Dict String (Arr3 R)) × Cache R × (ℕ × ℕ)
  | [], ir, cache, cspan => (.ok ir, cache, cspan)
  | l :: rest, ir, cache, cspan =>
    match convStep ext mat m span gs zs exL n l cache cspan with
    | (.error e, cache1, cspan1) => (.error e, cache1, cspan1)
    | (.ok cfs, cache1, cspan1) =>
      match accumLoop nl zsh st ("loads_".push l) cfs ir with
      | .error e => (.error e, cache1, cspan1)
      | .ok ir1 => lcompLoop nl ext mat m span gs zs zsh exL st n rest ir1 cache1 cspan1

/-- The insertion of the von Mises array into the intermediate results, given
the accumulator after the six `defaultdict` reads. -/
def vmInsert (nl : NumLib R) (zsh : ℕ × ℕ × ℕ) (ir1 : Dict String (Arr3 R)) :
    Dict String (Arr3 R) :=
  dinsert "vm"
    ⟨zsh, fun i j k =>
      codeVm nl ((irget nl zsh "xx" ir1).val i j k) ((irget nl zsh "yy" ir1).val i j k)
        ((irget nl zsh "zz" ir1).val i j k) ((irget nl zsh "xy" ir1).val i j k)
        ((irget nl zsh "yz" ir1).val i j k) ((irget nl zsh "xz" ir1).val i j k)⟩ ir1

/-- Lines 133-139: the von Mises branch, with the `defaultdict` reads of the
six tensor components in evaluation order. -/
def vmStep (nl : NumLib R) (zsh : ℕ × ℕ × ℕ) (sc : List String)
    (ir : Dict String (Arr3 R)) : Dict String (Arr3 R) :=
  if "vm" ∈ sc then
    vmInsert nl zsh (touchAll nl zsh ["xx", "yy", "zz", "xy", "yz", "xz"] ir)
  else ir

/-- Lines 140-168: the principal-stress branch.  The invariants are computed
(touching the six tensor components in evaluation order); then the loop
`for key in intermediate_results: if key not in self.stress_components: del
intermediate_results[key]` deletes a key from the dict being iterated, which
in Python raises `RuntimeError` as soon as any key needs deleting; otherwise
the three principal-stress arrays are inserted (`'1'`, `'3'`, then `'2'`). -/
def principalInsert (nl : NumLib R) (zsh : ℕ × ℕ × ℕ) (ir1 : Dict String (Arr3 R)) :
    Dict String (Arr3 R) :=
  dinsert "2"
    ⟨zsh, fun i j k =>
      codeS2sc nl ((irget nl zsh "xx" ir1).val i j k) ((irget nl zsh "yy" ir1).val i j k)
        ((irget nl zsh "zz" ir1).val i j k) ((irget nl zsh "xy" ir1).val i j k)
        ((irget nl zsh "xz" ir1).val i j k) ((irget nl zsh "yz" ir1).val i j k)⟩
    (dinsert "3"
      ⟨zsh, fun i j k =>
        codeS3sc nl ((irget nl zsh "xx" ir1).val i j k) ((irget nl zsh "yy" ir1).val i j k)
          ((irget nl zsh "zz" ir1).val i j k) ((irget nl zsh "xy" ir1).val i j k)
          ((irget nl zsh "xz" ir1).val i j k) ((irget nl zsh "yz" ir1).val i j k)⟩
      (dinsert "1"
        ⟨zsh, fun i j k =>
          codeS1sc nl ((irget nl zsh "xx" ir1).val i j k) ((irget nl zsh "yy" ir1).val i j k)
            ((irget nl zsh "zz" ir1).val i j k) ((irget nl zsh "xy" ir1).val i j k)
            ((irget nl zsh "xz" ir1).val i j k) ((irget nl zsh "yz" ir1).val i j k)⟩
        ir1))

/-- Lines 140-168 continued: the match result of the deletion loop and the
insertion of the principal-stress arrays (`'1'`, `'3'`, then `'2'`). -/
def principalStep (nl : NumLib R) (zsh : ℕ × ℕ × ℕ) (sc : List String)
    (ir : Dict String (Arr3 R)) : Except Err (Dict String (Arr3 R)) :=
  if "1" ∈ sc ∨ "2" ∈ sc ∨ "3" ∈ sc then
    match (dkeys (touchAll nl zsh ["xx", "yy", "zz", "xy", "xz", "yz"] ir)).find?
        (fun k => !(sc.contains k)) with
    | some _ => .error (.runtimeError "dictionary changed size during iteration")
    | none => .ok (principalInsert nl zsh (touchAll nl zsh ["xx", "yy", "zz", "xy", "xz", "yz"] ir))
  else .ok ir

/-- Lines 170-171: write the requested components into the state under
`surface_<id>_<component>` (a `defaultdict` read, so a component the
accumulator never saw is written as zeros). -/
def writeLoop (nl : NumLib R) (zsh : ℕ × ℕ × ℕ) (n : ℕ) :
    List String → Dict String (Arr3 R) → State R → State R
  | [], _, st => st
  | key :: rest, ir, st =>
    writeLoop nl zsh n rest (touch nl zsh key ir)
      (dinsert ("surface_" ++ toString n ++ "_" ++ key) (.a3 (irget nl zsh key ir)) st)

/-- Lines 103-171: processing of one target surface. -/
def doSurface (nl : NumLib R) (ext : Ext R K) (env : ModelEnv R K)
    (m : SubsurfaceStress R) (span : ℕ × ℕ) (zsh : ℕ × ℕ × ℕ) (zs : List R)
    (exL : Arr2 R) (st : State R) (n : ℕ) (cache : Cache R) (cspan : ℕ × ℕ) :
    Option Err × State R × Cache R × (ℕ × ℕ) :=
  match env.surface n with
  | none => (some (.attributeError ("surface_" ++ toString n)), st, cache, cspan)
  | some sobj =>
    if sobj.material.is_im then
      match lcompLoop nl ext sobj.material m span [sobj.grid_spacing, sobj.grid_spacing] zs zsh
          exL st n m.load_components [] cache cspan with
      | (.error e, cache1, cspan1) => (some e, st, cache1, cspan1)
      | (.ok ir, cache1, cspan1) =>
        match principalStep nl zsh m.stress_components (vmStep nl zsh m.stress_components ir) with
        | .error e => (some e, st, cache1, cspan1)
        | .ok ir3 => (none, writeLoop nl zsh n m.stress_components ir3 st, cache1, cspan1)
    else
      (some (.assertionError
        "Sub surface stress only valid for influence matrix based materials"), st, cache, cspan)

/-- The outcome of one `solve` call: the state as mutated so far, the updated
kernel cache and cached span, and the exception if one was raised. -/
structure SolveOut (R : Type) where
  state : State R
  cache : Cache R
  cache_span : ℕ × ℕ
  res : Option Err

/-- The loop over the configured surfaces. -/
def surfLoop (nl : NumLib R) (ext : Ext R K) (env : ModelEnv R K)
    (m : SubsurfaceStress R) (span : ℕ × ℕ) (zsh : ℕ × ℕ × ℕ) (zs : List R)
    (exL : Arr2 R) : List ℕ → State R → Cache R → (ℕ × ℕ) → SolveOut R
  | [], st, cache, cspan => ⟨st, cache, cspan, none⟩
  | n :: rest, st, cache, cspan =>
    match doSurface nl ext env m span zsh zs exL st n cache cspan with
    | (some e, st1, cache1, cspan1) => ⟨st1, cache1, cspan1, some e⟩
    | (none, st1, cache1, cspan1) => surfLoop nl ext env m span zsh zs exL rest st1 cache1 cspan1

/-- `SubsurfaceStress.solve` (lines 91-172).  The example load field is
`current_state['loads_' + self.load_components[0]]` (a raised `KeyError` on
the state is the spec's `MissingDependency`), the span is its shape, and
`out_put_shape = (len(self.z),) + span` raises `TypeError` when `z` was left
as `None` by `__init__`. -/
def SubsurfaceStress.solve (nl : NumLib R) (ext : Ext R K) (env : ModelEnv R K)
    (m : SubsurfaceStress R) (current_state : State R) : SolveOut R :=
  match m.load_components with
  | [] => ⟨current_state, m.kernel_cache, m.cache_span, some (.indexError "load_components")⟩
  | c :: _ =>
    match dget? ("loads_".push c) current_state with
    | none =>
      ⟨current_state, m.kernel_cache, m.cache_span,
        some (.missingDependency ("loads_".push c))⟩
    | some (.a3 _) =>
      ⟨current_state, m.kernel_cache, m.cache_span, some (.typeError ("loads_".push c))⟩
    | some (.a2 exL) =>
      match m.z with
      | none =>
        ⟨current_state, m.kernel_cache, m.cache_span,
          some (.typeError "object of type None has no len")⟩
      | some zs =>
        surfLoop nl ext env m exL.shape (zs.length, exL.shape.1, exL.shape.2) zs exL
          m.surfaces current_state m.kernel_cache m.cache_span

/-- Read a 3-d result out of the state at one index (zero if absent or not a
result array); a convenience accessor for stating theorems. -/
def stateAt (nl : NumLib R) (st : State R) (k : String) (i j l : ℕ) : R :=
  match dget? k st with
  | some (.a3 a) => a.val i j l
  | _ => nl.natCast 0

/-! ## The rolling-surface shift sub-model -/

/-- Modelled from the spec: the transient sub-model base class
`_TransientSubModelABC` is not part of the sources; per the spec it records
the declared name, requires and provides sets, the time-varying parameters
and their names, and the interpolation mode. -/
structure TransientSubModelData where
  name : String
  requires : Finset String
  provides : Finset String
  params : ℚ × ℚ
  param_names : String × String
  interpolation_mode : String

/-- Python's `set(s)` on a string `s`: the set of its one-character
substrings. -/
def pySetOfString (s : String) : Finset String :=
  (s.data.map (fun c => "".push c)).toFinset

/-- The `UpdateShiftRollingSurface` sub-model instance. -/
structure UpdateShiftRollingSurface where
  base : TransientSubModelData
  surface_to_roll : ℤ

/-- `UpdateShiftRollingSurface.__init__`: the base class is initialised with
`set("time_step")` as the requires set and `set()` as provides, then
`surface_to_roll` is validated to be 1 or 2. -/
def UpdateShiftRollingSurface.init (name : String) (surface_to_roll : ℤ)
    (speed_x speed_y : ℚ) (interpolation_mode : String) :
    Except Err UpdateShiftRollingSurface :=
  let base : TransientSubModelData :=
    { name := name
      requires := pySetOfString "time_step"
      provides := ∅
      params := (speed_x, speed_y)
      param_names := (name ++ "_shift_speed_x", name ++ "_shift_speed_y")
      interpolation_mode := interpolation_mode }
  if surface_to_roll = 1 ∨ surface_to_roll = 2 then
    .ok { base := base, surface_to_roll := surface_to_roll }
  else
    .error (.valueError ("Surface to roll should be either 1 or 2, got " ++ toString surface_to_roll))

/-- The observable outcome of `UpdateShiftRollingSurface._solve`: the shift
`(distance_y, distance_x)` applied to `self.model.surface_1` (or `none` when
no surface was mutated) and the returned state mapping. -/
structure ShiftOut where
  shift : Option (ℚ × ℚ)
  state : Dict String ℚ
deriving DecidableEq

/-- `UpdateShiftRollingSurface._solve`: the interpolated speeds arrive in
`kwargs` under `<name>_shift_speed_x/_y`, the distances are
`speed * current_state['time_step']`, and `self.model.surface_1.shift(
distance_y, distance_x)` is called only when `surface_to_roll == 1`. -/
def UpdateShiftRollingSurface._solve (m : UpdateShiftRollingSurface)
    (current_state : Dict String ℚ) (kwargs : Dict String ℚ) : Except Err ShiftOut :=
  match dget? (m.base.name ++ "_shift_speed_x") kwargs with
  | none => .error (.keyError (m.base.name ++ "_shift_speed_x"))
  | some vx =>
    match dget? "time_step" current_state with
    | none => .error (.missingDependency "time_step")
    | some ts =>
      match dget? (m.base.name ++ "_shift_speed_y") kwargs with
      | none => .error (.keyError (m.base.name ++ "_shift_speed_y"))
      | some vy =>
        if m.surface_to_roll = 1 then
          .ok { shift := some (vy * ts, vx * ts), state := current_state }
        else
          .ok { shift := none, state := current_state }

/-! ## Concrete instantiations used to evaluate the code on explicit inputs -/

/-- A placeholder sub-model, used only as the `exOk` fallback. -/
def junkModel (R : Type) : SubsurfaceStress R where
  name := ""
  requires := ∅
  provides := ∅
  surfaces := []
  load_components := []
  stress_components := []
  keep_kernels := false
  cuda_convolutions := false
  kernel_cache := []
  cache_span := (0, 0)
  z := none
  comps_to_find := []
  periodic_axes := (false, false)

/-- A rational influence-matrix material returning one (trivial) kernel per
requested stress component. -/
def matQ : Material ℚ Unit where
  is_im := true
  sss_influence_matrices_normal := fun _ _ comps _ _ => comps.map (fun c => (c, ()))
  sss_influence_matrices_tangential_x := fun _ _ comps _ _ => comps.map (fun c => (c, ()))
  sss_influence_matrices_tangential_y := fun _ _ comps _ _ => comps.map (fun c => (c, ()))

/-- A rational convolution planner: every convolution returns a zero field. -/
def extQ : Ext ℚ Unit where
  plan_multi_convolve := fun _ _ _ => fun _ => ⟨(1, 4, 4), fun _ _ _ => 0⟩

/-- A contact model in which every surface exists and is influence-matrix
based. -/
def envQ : ModelEnv ℚ Unit where
  surface := fun _ => some { material := matQ, grid_spacing := 1 }

/-- A concrete 4×4 zero load field. -/
def loadsQ : Arr2 ℚ := ⟨(4, 4), fun _ _ => 0⟩

/-- A state holding only `loads_z`. -/
def stQ : State ℚ := [("loads_z", .a2 loadsQ)]

/-- C2 scenario: two surfaces, normal loads, `keep_kernels=True`. -/
def mC2 : SubsurfaceStress ℚ :=
  exOk (SubsurfaceStress.init ℚ (some [0]) [1, 2] "sub_surface_stress" (false, false)
    ['z'] ["xx"] true false) (junkModel ℚ)

/-- The outcome of the first `solve` call in the C2 scenario. -/
def outC2 : SolveOut ℚ := SubsurfaceStress.solve ratLib extQ envQ mC2 stQ

/-- C3 scenario: one surface, principal stress `'1'` requested. -/
def mC3 : SubsurfaceStress ℚ :=
  exOk (SubsurfaceStress.init ℚ (some [0]) [1] "sub_surface_stress" (false, false)
    ['z'] ["1"] false false) (junkModel ℚ)

/-- The outcome of the `solve` call in the C3 scenario. -/
def outC3 : SolveOut ℚ := SubsurfaceStress.solve ratLib extQ envQ mC3 stQ

/-- C4 scenario: as C2 but with `keep_kernels=False`. -/
def mC4 : SubsurfaceStress ℚ :=
  exOk (SubsurfaceStress.init ℚ (some [0]) [1, 2] "sub_surface_stress" (false, false)
    ['z'] ["xx"] false false) (junkModel ℚ)

/-- The `keep_kernels=False` outcome in the C4 comparison. -/
def outC4f : SolveOut ℚ := SubsurfaceStress.solve ratLib extQ envQ mC4 stQ

/-- The `keep_kernels=True` outcome in the C4 comparison (same configuration,
same state, only the flag differs). -/
def outC4t : SolveOut ℚ := SubsurfaceStress.solve ratLib extQ envQ mC2 stQ

/-- C7 witness scenario: a well-formed single-surface model. -/
def mC7 : SubsurfaceStress ℚ :=
  exOk (SubsurfaceStress.init ℚ (some [0]) [1] "sub_surface_stress" (false, false)
    ['z'] ["xx"] false false) (junkModel ℚ)

/-- C7 failing scenario: two load directions with the default
`keep_kernels=True`, so that both `loads_x` and `loads_z` are required. -/
def mXZ : SubsurfaceStress ℚ :=
  exOk (SubsurfaceStress.init ℚ (some [0]) [1] "sub_surface_stress" (false, false)
    ['x', 'z'] ["xx"] true false) (junkModel ℚ)

/-- A state holding only `loads_x`: the required key `loads_z` is absent. -/
def stX : State ℚ := [("loads_x", .a2 loadsQ)]

/-- The outcome of the `solve` call in the C7 failing scenario. -/
def outXZ : SolveOut ℚ := SubsurfaceStress.solve ratLib extQ envQ mXZ stX

/-- C8 scenario: `z` left unset (`None`). -/
def mC8 : SubsurfaceStress ℚ :=
  exOk (SubsurfaceStress.init ℚ none [1] "sub_surface_stress" (false, false)
    ['z'] ["xx"] false false) (junkModel ℚ)

/-- The outcome of the `solve` call in the C8 scenario. -/
def outC8 : SolveOut ℚ := SubsurfaceStress.solve ratLib extQ envQ mC8 stQ

/-- C5 scenario material: the convolved tensor components form, at every grid
point and depth, the diagonal Cauchy tensor `diag(1, 2, 3)` (kernels carry
the constant each convolution produces). -/
noncomputable def matR : Material ℝ ℝ where
  is_im := true
  sss_influence_matrices_normal := fun _ _ _ _ _ =>
    [("xx", 1), ("yy", 2), ("zz", 3), ("xy", 0), ("yz", 0), ("xz", 0)]
  sss_influence_matrices_tangential_x := fun _ _ _ _ _ => []
  sss_influence_matrices_tangential_y := fun _ _ _ _ _ => []

/-- C5 scenario planner: each convolution returns the constant field carried
by its kernel. -/
noncomputable def extR : Ext ℝ ℝ where
  plan_multi_convolve := fun _ k _ => fun _ => ⟨(1, 2, 2), fun _ _ _ => k⟩

/-- C5 scenario contact model. -/
noncomputable def envR : ModelEnv ℝ ℝ where
  surface := fun _ => some { material := matR, grid_spacing := 1 }

/-- A concrete 2×2 zero load field over the reals. -/
noncomputable def loadsR : Arr2 ℝ := ⟨(2, 2), fun _ _ => 0⟩

/-- A real-valued state holding only `loads_z`. -/
noncomputable def stR : State ℝ := [("loads_z", .a2 loadsR)]

/-- C5 scenario sub-model: all six tensor components plus the three principal
stresses requested (so that the deletion loop deletes nothing). -/
noncomputable def mC5 : SubsurfaceStress ℝ :=
  exOk (SubsurfaceStress.init ℝ (some [0]) [1] "sub_surface_stress" (false, false)
    ['z'] ["xx", "yy", "zz", "xy", "yz", "xz", "1", "2", "3"] false false) (junkModel ℝ)

/-- The outcome of the `solve` call in the C5 scenario. -/
noncomputable def outC5 : SolveOut ℝ := SubsurfaceStress.solve realLib extR envR mC5 stR

/-- The stress-component list of the C6 witness. -/
def scC6 : List String := ["xx", "yy", "zz", "xy", "xz", "yz", "1", "2", "3"]

/-- A placeholder shift sub-model, used only as the `exOk` fallback. -/
def shiftJunk : UpdateShiftRollingSurface :=
  ⟨⟨"", ∅, ∅, (0, 0), ("", ""), ""⟩, 0⟩

/-- The C9 scenario instance, built by the constructor. -/
def mShift : UpdateShiftRollingSurface :=
  exOk (UpdateShiftRollingSurface.init "roll" 1 2 3 "linear") shiftJunk

/-- The C10 witness instance: `surface_to_roll = 2`. -/
def mShift2 : UpdateShiftRollingSurface :=
  exOk (UpdateShiftRollingSurface.init "n" 2 5 7 "linear") shiftJunk

/-- A state with a concrete `time_step` for the C10 witness. -/
def stShift : Dict String ℚ := [("time_step", 3)]

/-- Interpolated speeds for the C10 witness. -/
def kwShift : Dict String ℚ := [("n_shift_speed_x", 5), ("n_shift_speed_y", 7)]

/-! ## Dictionary lemmas -/

/-- Lookup after a Python-dict assignment. -/
theorem dget?_dinsert {α β : Type} [DecidableEq α] (k k0 : α) (v : β) (d : Dict α β) :
    dget? k (dinsert k0 v d) = if k0 = k then some v else dget? k d := by
  induction d with
  | nil => simp [dinsert, dget?]
  | cons hd tl ih =>
    obtain ⟨k1, v1⟩ := hd
    by_cases h1 : k1 = k0 <;> by_cases h2 : k1 = k <;> by_cases h3 : k0 = k <;>
      simp_all [dinsert, dget?]

/-- Lookup distributes over appending. -/
theorem dget?_append {α β : Type} [DecidableEq α] (k : α) (d e : Dict α β) :
    dget? k (d ++ e) = ((dget? k d).orElse (fun _ => dget? k e)) := by
  induction d with
  | nil => simp [dget?]
  | cons hd tl ih =>
    obtain ⟨k1, v1⟩ := hd
    by_cases h : k1 = k <;> simp [dget?, h, ih]

/-- A `defaultdict` read is unaffected by the entry-creating side effect of
another read. -/
theorem irget_touch {R : Type} (nl : NumLib R) (zsh : ℕ × ℕ × ℕ) (k k0 : String)
    (ir : Dict String (Arr3 R)) :
    irget nl zsh k (touch nl zsh k0 ir) = irget nl zsh k ir := by
  unfold touch
  cases h : dget? k0 ir with
  | some v => rfl
  | none =>
    unfold irget
    rw [dget?_append]
    cases h2 : dget? k ir with
    | some w => simp
    | none =>
      by_cases hk : k0 = k
      · subst hk; simp [dget?]
      · simp [dget?, hk]

/-- A `defaultdict` read is unaffected by a sequence of reads. -/
theorem irget_touchAll {R : Type} (nl : NumLib R) (zsh : ℕ × ℕ × ℕ) (ks : List String)
    (k : String) (ir : Dict String (Arr3 R)) :
    irget nl zsh k (touchAll nl zsh ks ir) = irget nl zsh k ir := by
  induction ks generalizing ir with
  | nil => rfl
  | cons k1 rest ih =>
    simp only [touchAll, List.foldl_cons]
    exact (ih (touch nl zsh k1 ir)).trans (irget_touch nl zsh k k1 ir)

/-- Reading key `'1'` after the principal-stress insertions yields the
largest-root array. -/
theorem irget_principalInsert_one {R : Type} (nl : NumLib R) (zsh : ℕ × ℕ × ℕ)
    (ir1 : Dict String (Arr3 R)) :
    irget nl zsh "1" (principalInsert nl zsh ir1) =
      ⟨zsh, fun i j k =>
        codeS1sc nl ((irget nl zsh "xx" ir1).val i j k) ((irget nl zsh "yy" ir1).val i j k)
          ((irget nl zsh "zz" ir1).val i j k) ((irget nl zsh "xy" ir1).val i j k)
          ((irget nl zsh "xz" ir1).val i j k) ((irget nl zsh "yz" ir1).val i j k)⟩ := by
  unfold principalInsert irget
  rw [dget?_dinsert, if_neg (by decide : ¬ (("2" : String) = "1"))]
  rw [dget?_dinsert, if_neg (by decide : ¬ (("3" : String) = "1"))]
  rw [dget?_dinsert, if_pos rfl]
  rfl

/-- Reading key `'2'` after the principal-stress insertions yields the
trace-completion array. -/
theorem irget_principalInsert_two {R : Type} (nl : NumLib R) (zsh : ℕ × ℕ × ℕ)
    (ir1 : Dict String (Arr3 R)) :
    irget nl zsh "2" (principalInsert nl zsh ir1) =
      ⟨zsh, fun i j k =>
        codeS2sc nl ((irget nl zsh "xx" ir1).val i j k) ((irget nl zsh "yy" ir1).val i j k)
          ((irget nl zsh "zz" ir1).val i j k) ((irget nl zsh "xy" ir1).val i j k)
          ((irget nl zsh "xz" ir1).val i j k) ((irget nl zsh "yz" ir1).val i j k)⟩ := by
  unfold principalInsert irget
  rw [dget?_dinsert, if_pos rfl]
  rfl

/-- Reading key `'3'` after the principal-stress insertions yields the
smallest-root array. -/
theorem irget_principalInsert_three {R : Type} (nl : NumLib R) (zsh : ℕ × ℕ × ℕ)
    (ir1 : Dict String (Arr3 R)) :
    irget nl zsh "3" (principalInsert nl zsh ir1) =
      ⟨zsh, fun i j k =>
        codeS3sc nl ((irget nl zsh "xx" ir1).val i j k) ((irget nl zsh "yy" ir1).val i j k)
          ((irget nl zsh "zz" ir1).val i j k) ((irget nl zsh "xy" ir1).val i j k)
          ((irget nl zsh "xz" ir1).val i j k) ((irget nl zsh "yz" ir1).val i j k)⟩ := by
  unfold principalInsert irget
  rw [dget?_dinsert, if_neg (by decide : ¬ (("2" : String) = "3"))]
  rw [dget?_dinsert, if_pos rfl]
  rfl

/-! ## Claim theorems -/

/-- C1: constructing `SubsurfaceStress` with the *default* configuration
`stress_components=('all',)` does not succeed: `'all'` is absent from the
`valid_stresses` tuple the constructor validates against, so the eager
validation rejects it with the "unrecognised stress component" error, instead
of producing the six Cauchy components as the claim states. -/
theorem c1_default_all_rejected :
    SubsurfaceStress.init ℚ none [1, 2] "sub_surface_stress" (false, false)
      ['z'] ["all"] true false =
      .error (.valueError "Unrecognised stress component: all") := rfl

/-- C2: in a two-surface configuration with `keep_kernels=True`, a `solve`
call whose span (4,4) differs from the recorded span (0,0) rebuilds kernels
only for the first (surface, direction) pair: rebuilding for surface 1 sets
`self._cache_span = span`, so surface 2 takes the cache-hit branch, finds no
entry under the load-component key (the initial cache is keyed by stress
components) and raises `KeyError` — the kernels are not rebuilt for every
surface and direction as the claim states. -/
theorem c2_stale_cache_not_rebuilt :
    mC2.keep_kernels = true ∧
    mC2.cache_span = (0, 0) ∧
    loadsQ.shape = (4, 4) ∧
    outC2.res = some (.keyError "z") ∧
    (dget? "z" ((dget? 1 outC2.cache).getD [])).isSome = true ∧
    (dget? "z" ((dget? 2 outC2.cache).getD [])).isNone = true :=
  ⟨rfl, rfl, rfl, rfl, rfl, rfl⟩

/-- C3: requesting the principal stress `'1'` alone makes `solve` compute all
six raw components and then crash with `RuntimeError` in the loop
`for key in intermediate_results: ... del intermediate_results[key]` (a dict
must not change size during iteration), so no `surface_1_1` key is ever
written, contrary to the claim. -/
theorem c3_principal_deletion_runtime_error :
    mC3.stress_components = ["1"] ∧
    mC3.comps_to_find = ["xx", "yy", "zz", "xy", "yz", "xz"] ∧
    outC3.res = some (.runtimeError "dictionary changed size during iteration") ∧
    outC3.state = stQ ∧
    dget? "surface_1_1" outC3.state = none :=
  ⟨rfl, rfl, rfl, rfl, rfl⟩

/-- C4: with two configured surfaces and identical inputs, `keep_kernels`
changes the result: `keep_kernels=False` completes and writes
`surface_2_xx`, while `keep_kernels=True` raises `KeyError` on the second
surface in the very first call (see C2) and writes nothing for it — the flag
is not transparent as the claim states. -/
theorem c4_keep_kernels_not_transparent :
    outC4f.res = none ∧
    (dget? "surface_2_xx" outC4f.state).isSome = true ∧
    outC4t.res = some (.keyError "z") ∧
    (dget? "surface_2_xx" outC4t.state).isNone = true :=
  ⟨rfl, rfl, rfl, rfl⟩

/-- C5: for the constant tensor field `diag(1, 2, 3)` the principal stresses
written by `solve` are `'1' = -1`, `'2' = 10`, `'3' = -3`: the trigonometric
formula as implemented returns the *negated* eigenvalues (the change of
variable subtracts `b/3` instead of adding it, combined with a sign-flipped
`q`), and `'2' = b - '1' - '3'` then yields 10, so the claimed ordering
`1 ≥ 2 ≥ 3` fails. -/
theorem c5_ordering_violated :
    stateAt realLib outC5.state "surface_1_1" 0 0 0 = -1 ∧
    stateAt realLib outC5.state "surface_1_2" 0 0 0 = 10 ∧
    stateAt realLib outC5.state "surface_1_3" 0 0 0 = -3 ∧
    ¬ (stateAt realLib outC5.state "surface_1_1" 0 0 0 ≥
        stateAt realLib outC5.state "surface_1_2" 0 0 0) := by
  have hb : codeB realLib (1:ℝ) 2 3 = 6 := by simp [codeB, realLib]; norm_num
  have hc : codeC realLib (1:ℝ) 2 3 0 0 0 = 11 := by simp [codeC, realLib]; norm_num
  have hd : codeD realLib (1:ℝ) 2 3 0 0 0 = 6 := by simp [codeD, realLib]; norm_num
  have hp : codeP realLib (6:ℝ) 11 = -1 := by simp [codeP, realLib]; norm_num
  have hq : codeQ realLib (6:ℝ) 11 6 = 0 := by simp [codeQ, realLib]; norm_num
  have r0 : codeRoot realLib 6 (-1) 0 0 = -1 := by
    simp only [codeRoot, realLib]
    norm_num
    rw [show (1:ℝ)/3 * (Real.pi/2) = Real.pi/6 from by ring, Real.cos_pi_div_six]
    have h3 : Real.sqrt 3 ≠ 0 := by positivity
    field_simp
    norm_num
  have r1 : codeRoot realLib 6 (-1) 0 1 = -2 := by
    simp only [codeRoot, realLib]
    norm_num
    rw [show (1:ℝ)/3 * (Real.pi/2) - 2*Real.pi/3 = -(Real.pi/2) from by ring, Real.cos_neg,
      Real.cos_pi_div_two]
  have r2 : codeRoot realLib 6 (-1) 0 2 = -3 := by
    simp only [codeRoot, realLib]
    norm_num
    rw [show (1:ℝ)/3 * (Real.pi/2) - 2*Real.pi*2/3 = -(7*Real.pi/6) from by ring, Real.cos_neg,
      show (7:ℝ)*Real.pi/6 = Real.pi - -(Real.pi/6) from by ring, Real.cos_pi_sub, Real.cos_neg,
      Real.cos_pi_div_six]
    have h3 : Real.sqrt 3 ≠ 0 := by positivity
    field_simp
    ring
  have hS1 : codeS1sc realLib (1:ℝ) 2 3 0 0 0 = -1 := by
    simp only [codeS1sc]
    rw [hb, hc, hd, hp, hq, r0, r1, r2]
    simp only [realLib]
    norm_num [max_def]
  have hS3 : codeS3sc realLib (1:ℝ) 2 3 0 0 0 = -3 := by
    simp only [codeS3sc]
    rw [hb, hc, hd, hp, hq, r0, r1, r2]
    simp only [realLib]
    norm_num [min_def]
  have hS2 : codeS2sc realLib (1:ℝ) 2 3 0 0 0 = 10 := by
    simp only [codeS2sc]
    rw [hb, hS1, hS3]
    simp only [realLib]
    norm_num
  have e1 : ((0:ℕ):ℝ) + 1 = 1 := by norm_num
  have e2 : ((0:ℕ):ℝ) + 2 = 2 := by norm_num
  have e3 : ((0:ℕ):ℝ) + 3 = 3 := by norm_num
  have e0 : ((0:ℕ):ℝ) + 0 = 0 := by norm_num
  have g1 : stateAt realLib outC5.state "surface_1_1" 0 0 0
      = codeS1sc realLib (((0:ℕ):ℝ) + 1) (((0:ℕ):ℝ) + 2) (((0:ℕ):ℝ) + 3) (((0:ℕ):ℝ) + 0)
        (((0:ℕ):ℝ) + 0) (((0:ℕ):ℝ) + 0) := rfl
  have g2 : stateAt realLib outC5.state "surface_1_2" 0 0 0
      = codeS2sc realLib (((0:ℕ):ℝ) + 1) (((0:ℕ):ℝ) + 2) (((0:ℕ):ℝ) + 3) (((0:ℕ):ℝ) + 0)
        (((0:ℕ):ℝ) + 0) (((0:ℕ):ℝ) + 0) := rfl
  have g3 : stateAt realLib outC5.state "surface_1_3" 0 0 0
      = codeS3sc realLib (((0:ℕ):ℝ) + 1) (((0:ℕ):ℝ) + 2) (((0:ℕ):ℝ) + 3) (((0:ℕ):ℝ) + 0)
        (((0:ℕ):ℝ) + 0) (((0:ℕ):ℝ) + 0) := rfl
  rw [g1, g2, g3, e1, e2, e3, e0]
  refine ⟨hS1, hS2, hS3, ?_⟩
  rw [hS1, hS2]
  norm_num

/-- C6: trace conservation holds: whenever the principal-stress branch of
`solve` (the `principalStep` stage, entered because `'1'`, `'2'` or `'3'` was
requested) completes without error, the three principal-stress arrays it
inserts satisfy `1 + 2 + 3 = xx + yy + zz` exactly, at every grid point and
depth — `'2'` is defined as `b - '1' - '3'` with `b` the trace, so the sum
telescopes to the trace. -/
theorem c6_trace_conservation (zsh : ℕ × ℕ × ℕ) (sc : List String)
    (ir ir2 : Dict String (Arr3 ℝ))
    (hreq : "1" ∈ sc ∨ "2" ∈ sc ∨ "3" ∈ sc)
    (hok : principalStep realLib zsh sc ir = .ok ir2) :
    ∀ i j k : ℕ,
      (irget realLib zsh "1" ir2).val i j k + (irget realLib zsh "2" ir2).val i j k +
          (irget realLib zsh "3" ir2).val i j k =
        (irget realLib zsh "xx" ir).val i j k + (irget realLib zsh "yy" ir).val i j k +
          (irget realLib zsh "zz" ir).val i j k := by
  intro i j k
  unfold principalStep at hok
  rw [if_pos hreq] at hok
  split at hok
  · exact absurd hok (by simp)
  · have h2 := Except.ok.inj hok
    subst h2
    rw [irget_principalInsert_one, irget_principalInsert_two, irget_principalInsert_three]
    simp only []
    rw [irget_touchAll, irget_touchAll, irget_touchAll]
    simp only [codeS2sc, codeB, realLib]
    ring

/-- C6 witness: the trace-conservation theorem applied to a concrete
successful run of the principal-stress stage on the empty accumulator. -/
theorem c6_trace_conservation_witness :
    (irget realLib (1, 1, 1) "1" (exOk (principalStep realLib (1, 1, 1) scC6 []) [])).val 0 0 0 +
        (irget realLib (1, 1, 1) "2" (exOk (principalStep realLib (1, 1, 1) scC6 []) [])).val 0 0 0 +
        (irget realLib (1, 1, 1) "3" (exOk (principalStep realLib (1, 1, 1) scC6 []) [])).val 0 0 0 =
      (irget realLib (1, 1, 1) "xx" ([] : Dict String (Arr3 ℝ))).val 0 0 0 +
        (irget realLib (1, 1, 1) "yy" ([] : Dict String (Arr3 ℝ))).val 0 0 0 +
        (irget realLib (1, 1, 1) "zz" ([] : Dict String (Arr3 ℝ))).val 0 0 0 :=
  c6_trace_conservation (1, 1, 1) scC6 []
    (exOk (principalStep realLib (1, 1, 1) scC6 []) [])
    (Or.inl (by decide)) rfl 0 0 0

/-- Supporting lemma: if the state lacks the *leading* required load key
`loads_<load_components[0]>`, `solve` raises `MissingDependency` (the
`KeyError` on the state read at line 96) and writes nothing: the state, the
kernel cache and the cached span are all returned unchanged. -/
theorem solve_leading_missing_dependency {R K : Type} (nl : NumLib R) (ext : Ext R K)
    (env : ModelEnv R K) (m : SubsurfaceStress R) (st : State R) (c : Char)
    (cs : List Char) (hlc : m.load_components = c :: cs)
    (hmiss : dget? ("loads_".push c) st = none) :
    SubsurfaceStress.solve nl ext env m st =
      ⟨st, m.kernel_cache, m.cache_span, some (.missingDependency ("loads_".push c))⟩ := by
  simp only [SubsurfaceStress.solve, hlc, hmiss]

/-- The supporting lemma applied to a concrete model solving against an empty
state. -/
theorem solve_leading_missing_dependency_inst :
    SubsurfaceStress.solve ratLib extQ envQ mC7 [] =
      ⟨[], mC7.kernel_cache, mC7.cache_span, some (.missingDependency ("loads_".push 'z'))⟩ :=
  solve_leading_missing_dependency ratLib extQ envQ mC7 [] 'z' [] rfl rfl

/-- C7: a state lacking a required `loads_*` key does not always make `solve`
raise `MissingDependency`.  With `load_components='xz'` and the default
`keep_kernels=True`, a state lacking the required key `loads_z` makes `solve`
fail with the kernel-cache `KeyError('z')` (the cache branch of the C2 bug is
reached before `current_state['loads_z']` is ever read), not with the
MissingDependency error the claim states.  The call still writes nothing (the
state is returned unchanged), and when the *leading* required key is the
missing one — the only required key in the default configuration — `solve`
does raise `MissingDependency`, as the last conjunct shows. -/
theorem c7_missing_loads_z_cache_keyerror :
    "loads_z" ∈ mXZ.requires ∧
    dget? "loads_z" stX = none ∧
    outXZ.res = some (.keyError "z") ∧
    ¬ (outXZ.res = some (.missingDependency "loads_z")) ∧
    outXZ.state = stX ∧
    dget? "surface_1_xx" outXZ.state = none ∧
    (SubsurfaceStress.solve ratLib extQ envQ mXZ []).res =
      some (.missingDependency "loads_x") :=
  ⟨by decide, rfl, rfl, by decide, rfl, rfl, rfl⟩

/-- C8: with `z` left unset, `__init__` stores `None` unchanged and `solve`
raises `TypeError` at `len(self.z)` instead of using depth sample points
derived from the grid spacing; no output of shape `(depth_count,) + span` is
produced and the state is unchanged. -/
theorem c8_default_z_raises :
    mC8.z = none ∧
    outC8.res = some (.typeError "object of type None has no len") ∧
    outC8.state = stQ :=
  ⟨rfl, rfl, rfl⟩

/-- C9: the constructor passes `set("time_step")` to the base class, which in
Python is the set of the *characters* of the string, so the declared requires
set is `{'t','i','m','e','_','s','p'}` and does not contain `"time_step"`,
contrary to the claim; the `_solve` part of the claim is right: the shift
distances are `speed * current_state['time_step']`. -/
theorem c9_requires_is_char_set :
    mShift.base.requires = ({"t", "i", "m", "e", "_", "s", "p"} : Finset String) ∧
    "time_step" ∉ mShift.base.requires ∧
    UpdateShiftRollingSurface._solve mShift [("time_step", 4)]
        [("roll_shift_speed_x", 2), ("roll_shift_speed_y", 3)] =
      .ok ⟨some ((3 : ℚ) * 4, (2 : ℚ) * 4), [("time_step", 4)]⟩ :=
  ⟨by decide, by decide, rfl⟩

/-- C10: the constructor accepts `surface_to_roll` equal to 1 or 2 and
rejects every other value; `_solve` applies a shift only when
`surface_to_roll == 1`, and when it is 2 no surface is mutated and the state
mapping is returned unchanged. -/
theorem c10_shift_only_surface_one :
    (∀ (name : String) (k : ℤ) (sx sy : ℚ) (im : String),
        exIsOk (UpdateShiftRollingSurface.init name k sx sy im) = true ↔ k = 1 ∨ k = 2) ∧
    (∀ (m : UpdateShiftRollingSurface) (st kw : Dict String ℚ) (out : ShiftOut),
        m.surface_to_roll = 2 →
        UpdateShiftRollingSurface._solve m st kw = .ok out →
        out.shift = none ∧ out.state = st) ∧
    (∀ (m : UpdateShiftRollingSurface) (st kw : Dict String ℚ) (out : ShiftOut),
        UpdateShiftRollingSurface._solve m st kw = .ok out →
        out.shift ≠ none → m.surface_to_roll = 1) := by
  refine ⟨?_, ?_, ?_⟩
  · intro name k sx sy im
    unfold UpdateShiftRollingSurface.init
    by_cases h : k = 1 ∨ k = 2
    · simp [h, exIsOk]
    · simp [h, exIsOk]
  · intro m st kw out h2 hs
    unfold UpdateShiftRollingSurface._solve at hs
    split at hs
    · exact absurd hs (by simp)
    · split at hs
      · exact absurd hs (by simp)
      · split at hs
        · exact absurd hs (by simp)
        · rw [h2] at hs
          rw [if_neg (by decide : ¬ ((2:ℤ) = 1))] at hs
          have := Except.ok.inj hs
          subst this
          exact ⟨rfl, rfl⟩
  · intro m st kw out hs hne
    unfold UpdateShiftRollingSurface._solve at hs
    split at hs
    · exact absurd hs (by simp)
    · split at hs
      · exact absurd hs (by simp)
      · split at hs
        · exact absurd hs (by simp)
        · split at hs
          · assumption
          · have := Except.ok.inj hs
            subst this
            exact absurd rfl hne

/-- C10 witness: the theorem applied at concrete inputs — construction with
`surface_to_roll = 2` succeeds, and its `_solve` mutates nothing and returns
the state unchanged. -/
theorem c10_shift_only_surface_one_witness :
    exIsOk (UpdateShiftRollingSurface.init "n" 2 5 7 "linear") = true ∧
    (exOk (UpdateShiftRollingSurface._solve mShift2 stShift kwShift) ⟨some (0, 0), []⟩).shift =
      none ∧
    (exOk (UpdateShiftRollingSurface._solve mShift2 stShift kwShift) ⟨some (0, 0), []⟩).state =
      stShift := by
  refine ⟨(c10_shift_only_surface_one.1 "n" 2 5 7 "linear").mpr (Or.inr rfl), ?_, ?_⟩
  · exact (c10_shift_only_surface_one.2.1 mShift2 stShift kwShift _ rfl rfl).1
  · exact (c10_shift_only_surface_one.2.1 mShift2 stShift kwShift _ rfl rfl).2

end Slippy
